import Mathlib

/-!
Shallow embedding of `src/plugins/linux-jack/jack-input.c` (the JACK audio
input plugin of obs-studio): the capture-session data model, the lifecycle
operations `jack_create`, `jack_update`, `jack_destroy`, the defaults
installer `jack_input_defaults`, and the channel-count modified callback
`jack_input_channel_count_changed` of the properties panel.

The functions `jack_init` and `deactivate_jack` live in `jack-wrapper.h`,
which is not part of the sources given; they are modelled from the spec and
kept abstract in their failure behaviour through an environment parameter
`r : jack_data → Int` giving the result code `jack_init` would return.
-/

namespace JackInput

/-- JACK_INPUT_MAX_PORTS from jack-input.c. -/
def JACK_INPUT_MAX_PORTS : Nat := 8

/-- The global array `channel_ports_property_names` of jack-input.c:
the string keys of the per-channel port-list properties. -/
def channel_ports_property_names : List String :=
  ["ports connected to channel 1",
   "ports connected to channel 2",
   "ports connected to channel 3",
   "ports connected to channel 4",
   "ports connected to channel 5",
   "ports connected to channel 6",
   "ports connected to channel 7",
   "ports connected to channel 8"]

/-- The part of an `obs_data_t` settings object this plugin reads:
`obs_data_get_bool(settings, "startjack")` and
`obs_data_get_int(settings, "channels")`. -/
structure obs_data where
  startjack : Bool
  channels : Int
deriving DecidableEq

/-- `struct jack_data`, restricted to the fields jack-input.c manipulates:
the owned device-name string (`NULL` is `none`), the channel count, the
server-start flag and the client handle (`NULL` is `none`).  The mutex and
the source pointer carry no value-level state here; the name of
`data->source` is passed to the operations explicitly. -/
structure jack_data where
  device : Option String
  channels : Int
  start_jack_server : Bool
  jack_client : Option Unit
deriving DecidableEq

/-- The calls `jack_update` makes into the audio-server wrapper, in order. -/
inductive JackCall where
  | deactivate
  | init
deriving DecidableEq

/-- Modelled from the spec: `deactivate_jack` (declared in `jack-wrapper.h`,
not among the given sources) closes the underlying audio client and port
connections, so afterwards the client handle is null ("client handle is
non-null only while activated"). -/
def deactivate_jack (data : jack_data) : jack_data :=
  { data with jack_client := none }

/-- Modelled from the spec: `jack_init` (declared in `jack-wrapper.h`, not
among the given sources) attempts to open the underlying audio client and
returns a status, `0` on success.  The environment decides the status via
`r`; on success the client handle becomes live, on failure no client is
obtained and the state is unchanged. -/
def jack_init (r : jack_data → Int) (data : jack_data) : Int × jack_data :=
  let code := r data
  if code = 0 then (code, { data with jack_client := some () }) else (code, data)

/-- `jack_update` on a non-null `jack_data` (the body after the null
check).  `new_device` is the value `obs_source_get_name(data->source)`
returns during this call.  Besides the new state it returns the ordered
list of wrapper calls made. -/
def jack_update_some (r : jack_data → Int) (data : jack_data)
    (settings : obs_data) (new_device : String) : jack_data × List JackCall :=
  let new_jack_start_server := settings.startjack
  let new_channel_count := settings.channels
  let step1 :=
    if new_jack_start_server ≠ data.start_jack_server then
      ({ data with start_jack_server := new_jack_start_server }, true)
    else (data, false)
  let data := step1.1
  let settings_changed := step1.2
  let settings_changed :=
    if new_channel_count ≠ data.channels then true else settings_changed
  let step2 :=
    if data.device = none ∨ data.device ≠ some new_device then
      ({ data with device := some new_device }, true)
    else (data, settings_changed)
  let data := step2.1
  let settings_changed := step2.2
  if settings_changed then
    let data := deactivate_jack data
    let data := { data with channels := new_channel_count }
    let step3 := jack_init r data
    if step3.1 ≠ 0 then
      (deactivate_jack step3.2, [JackCall.deactivate, JackCall.init, JackCall.deactivate])
    else (step3.2, [JackCall.deactivate, JackCall.init])
  else (data, [])

/-- `jack_update`: returns immediately on a null handle, otherwise runs
`jack_update_some`. -/
def jack_update (r : jack_data → Int) (vptr : Option jack_data)
    (settings : obs_data) (new_device : String) : Option jack_data × List JackCall :=
  match vptr with
  | none => (none, [])
  | some data =>
    let step := jack_update_some r data settings new_device
    (some step.1, step.2)

/-- `jack_create`: zero-allocates the state (all fields null/false), sets
`channels := -1`, runs `jack_update`, and destroys the state returning null
when no client was obtained.  `source_name` is the name of the `source`
argument. -/
def jack_create (r : jack_data → Int) (settings : obs_data)
    (source_name : String) : Option jack_data :=
  let data : jack_data :=
    { device := none, channels := 0, start_jack_server := false, jack_client := none }
  let data := { data with channels := -1 }
  let step := jack_update_some r data settings source_name
  if step.1.jack_client = none then none else some step.1

/-- The observable actions of `jack_destroy`. -/
inductive DestroyAction where
  | deactivate
  | freeDevice
  | mutexDestroy
  | freeData
deriving DecidableEq

/-- `jack_destroy`, rendered as the list of actions it performs: nothing on
a null handle, otherwise deactivate, free the device string when owned,
destroy the mutex and free the struct. -/
def jack_destroy (vptr : Option jack_data) : List DestroyAction :=
  match vptr with
  | none => []
  | some data =>
    [DestroyAction.deactivate] ++
      (if data.device.isSome then [DestroyAction.freeDevice] else []) ++
      [DestroyAction.mutexDestroy, DestroyAction.freeData]

/-- A default value stored by `obs_data_set_default_int` /
`obs_data_set_default_bool`. -/
inductive obs_default where
  | int (v : Int)
  | bool (v : Bool)
deriving DecidableEq

/-- Store of settings defaults: association list from key to default value.
Setting a default overwrites an existing entry for the key, else appends. -/
def obs_data_set_default (s : List (String × obs_default)) (k : String)
    (v : obs_default) : List (String × obs_default) :=
  if s.any (fun p => p.1 = k) then
    s.map (fun p => if p.1 = k then (k, v) else p)
  else s ++ [(k, v)]

/-- `obs_data_set_default_int`. -/
def obs_data_set_default_int (s : List (String × obs_default)) (k : String)
    (v : Int) : List (String × obs_default) :=
  obs_data_set_default s k (obs_default.int v)

/-- `obs_data_set_default_bool`. -/
def obs_data_set_default_bool (s : List (String × obs_default)) (k : String)
    (v : Bool) : List (String × obs_default) :=
  obs_data_set_default s k (obs_default.bool v)

/-- `jack_input_defaults`: installs the two defaults. -/
def jack_input_defaults (settings : List (String × obs_default)) :
    List (String × obs_default) :=
  obs_data_set_default_bool
    (obs_data_set_default_int settings "channels" 2) "startjack" false

/-- The integers `lo, lo+1, ..., hi-1`: the index sequence of a C loop
`for (i = lo; i < hi; ++i)`. -/
def intRange (lo hi : Int) : List Int :=
  (List.range (hi - lo).toNat).map (fun k : Nat => lo + (k : Int))

/-- `jack_input_channel_count_changed`: the modified callback of the
`channels` property.  The properties object is modelled by its visibility
assignment, a map from property name to visible flag; the first loop shows
the port lists of the first `channels` channels, the second hides the
rest. -/
def jack_input_channel_count_changed (channels : Int)
    (props : String → Bool) : String → Bool :=
  (intRange channels (JACK_INPUT_MAX_PORTS : Int)).foldl
    (fun ps i => Function.update ps (channel_ports_property_names.getD i.toNat "") false)
    ((intRange 0 channels).foldl
      (fun ps i => Function.update ps (channel_ports_property_names.getD i.toNat "") true)
      props)

/-- Session states reachable through a successful `jack_create` followed by
any sequence of `jack_update` calls, where every settings object supplied
carries a channel count in the documented schema range [1,8]. -/
inductive ReachableInRange : jack_data → Prop where
  | create (r : jack_data → Int) (s : obs_data) (name : String) (d : jack_data) :
      jack_create r s name = some d → 1 ≤ s.channels → s.channels ≤ 8 →
      ReachableInRange d
  | update (r : jack_data → Int) (s : obs_data) (name : String) (d : jack_data) :
      ReachableInRange d → 1 ≤ s.channels → s.channels ≤ 8 →
      ReachableInRange (jack_update_some r d s name).1

/-! ### Helper lemmas -/

theorem mem_intRange {lo hi j : Int} : j ∈ intRange lo hi ↔ lo ≤ j ∧ j < hi := by
  simp only [intRange, List.mem_map, List.mem_range]
  constructor
  · rintro ⟨k, hk, rfl⟩
    omega
  · rintro ⟨h1, h2⟩
    exact ⟨(j - lo).toNat, by omega, by omega⟩

theorem foldl_update_apply {α : Type} [DecidableEq α] (f : Int → α) (v : Bool)
    (l : List Int) (acc : α → Bool) (x : α) :
    (l.foldl (fun ps i => Function.update ps (f i) v) acc) x =
      if ∃ i ∈ l, f i = x then v else acc x := by
  induction l generalizing acc with
  | nil => simp
  | cons a t ih =>
    rw [List.foldl_cons, ih]
    by_cases ha : f a = x
    · have hu : Function.update acc (f a) v x = v := by
        rw [ha]
        exact Function.update_same x v acc
      by_cases h : ∃ i ∈ t, f i = x
      · simp [h, ha]
      · simp [h, ha, hu]
    · have hu : Function.update acc (f a) v x = acc x :=
        Function.update_noteq (fun hx => ha hx.symm) v acc
      by_cases h : ∃ i ∈ t, f i = x
      · simp [h, ha, hu]
      · simp [h, ha, hu]

theorem channel_ports_property_names_injOn (a b : Fin 8)
    (h : channel_ports_property_names.getD a.1 "" =
      channel_ports_property_names.getD b.1 "") : a = b := by
  revert h
  revert a b
  decide

theorem channel_ports_property_names_ne_empty (a : Fin 8) :
    channel_ports_property_names.getD a.1 "" ≠ "" := by
  revert a
  decide

theorem channel_ports_property_names_getD_big (a : Nat) (h : 8 ≤ a) :
    channel_ports_property_names.getD a "" = "" := by
  rcases a with _ | _ | _ | _ | _ | _ | _ | _ | a
  all_goals first
    | omega
    | rfl

/-- Pointwise description of `jack_input_channel_count_changed` at the
port-list key of channel index `j`, for any channel count. -/
theorem channel_count_changed_apply (c : Int) (props : String → Bool)
    (j : Nat) (hj : j < 8) :
    jack_input_channel_count_changed c props
        (channel_ports_property_names.getD j "") = decide ((j : Int) < c) := by
  simp only [jack_input_channel_count_changed]
  rw [foldl_update_apply, foldl_update_apply]
  have h1 : (∃ i ∈ intRange c (JACK_INPUT_MAX_PORTS : Int),
      channel_ports_property_names.getD i.toNat "" =
        channel_ports_property_names.getD j "") ↔ c ≤ (j : Int) := by
    constructor
    · rintro ⟨i, hi, he⟩
      rw [mem_intRange] at hi
      have hi8 : i.toNat < 8 := by
        simp only [JACK_INPUT_MAX_PORTS] at hi
        omega
      have := channel_ports_property_names_injOn ⟨i.toNat, hi8⟩ ⟨j, hj⟩ he
      have : i.toNat = j := congrArg Fin.val this
      omega
    · intro h
      refine ⟨(j : Int), mem_intRange.2 ⟨h, ?_⟩, by simp⟩
      simp only [JACK_INPUT_MAX_PORTS]
      omega
  have h2 : (∃ i ∈ intRange 0 c,
      channel_ports_property_names.getD i.toNat "" =
        channel_ports_property_names.getD j "") ↔ (j : Int) < c := by
    constructor
    · rintro ⟨i, hi, he⟩
      rw [mem_intRange] at hi
      by_cases hi8 : i.toNat < 8
      · have := channel_ports_property_names_injOn ⟨i.toNat, hi8⟩ ⟨j, hj⟩ he
        have : i.toNat = j := congrArg Fin.val this
        omega
      · rw [channel_ports_property_names_getD_big i.toNat (by omega)] at he
        exact absurd he.symm (channel_ports_property_names_ne_empty ⟨j, hj⟩)
    · intro h
      exact ⟨(j : Int), mem_intRange.2 ⟨by omega, h⟩, by simp⟩
  rw [if_congr h1 rfl rfl, if_congr h2 rfl rfl]
  by_cases h : (j : Int) < c
  · rw [if_neg (by omega), if_pos h]
    simp [h]
  · rw [if_pos (by omega)]
    simp [h]

/-- Closed form of `jack_update_some`: when nothing differs it is the
identity with no wrapper calls; otherwise it deactivates, applies the new
settings, reinitializes, and deactivates once more when the
reinitialization fails. -/
theorem jack_update_some_eq (r : jack_data → Int) (d : jack_data)
    (s : obs_data) (name : String) :
    jack_update_some r d s name =
      if s.startjack ≠ d.start_jack_server ∨ s.channels ≠ d.channels ∨
          d.device ≠ some name then
        if r { device := some name, channels := s.channels,
               start_jack_server := s.startjack, jack_client := none } = 0 then
          ({ device := some name, channels := s.channels,
             start_jack_server := s.startjack, jack_client := some () },
           [JackCall.deactivate, JackCall.init])
        else
          ({ device := some name, channels := s.channels,
             start_jack_server := s.startjack, jack_client := none },
           [JackCall.deactivate, JackCall.init, JackCall.deactivate])
      else (d, []) := by
  obtain ⟨dev, ch, st, cl⟩ := d
  by_cases h1 : s.startjack = st <;>
    by_cases h2 : s.channels = ch <;>
      by_cases h3 : dev = some name <;>
        simp [jack_update_some, deactivate_jack, jack_init, h1, h2, h3] <;>
          split <;> simp_all

/-- A session a successful `jack_create` returns carries the channel count
of the settings it was created from. -/
theorem jack_create_channels_eq (r : jack_data → Int) (s : obs_data)
    (name : String) (d : jack_data) (hc : jack_create r s name = some d) :
    d.channels = s.channels := by
  by_cases hr : r ⟨some name, s.channels, s.startjack, none⟩ = 0
  · simp [jack_create, jack_update_some_eq, hr] at hc
    subst hc
    rfl
  · simp [jack_create, jack_update_some_eq, hr] at hc

/-! ### Claim theorems -/

/-- Claim C1: for every channel count `c` in [1,8], the channel-count
modified callback of the properties panel, run on settings whose
`channels` value is `c`, leaves the port-list property of channel index
`j` visible exactly when `j < c`: indices `0..c-1` become visible and
indices `c..7` become hidden. -/
theorem getProperties_channel_count_visibility (c : Int) (hc1 : 1 ≤ c)
    (hc8 : c ≤ 8) (props : String → Bool) (j : Nat)
    (hj : j < JACK_INPUT_MAX_PORTS) :
    jack_input_channel_count_changed c props
        (channel_ports_property_names.getD j "") = decide ((j : Int) < c) :=
  channel_count_changed_apply c props j hj

theorem getProperties_channel_count_visibility_witness :
    jack_input_channel_count_changed 3 (fun _ => false)
        (channel_ports_property_names.getD 1 "") = decide ((1 : Int) < 3) :=
  getProperties_channel_count_visibility 3 (by decide) (by decide)
    (fun _ => false) 1 (by decide)

/-- Claim C2: if the settings update changes the server-start flag, the
channel count or the device name, and `jack_init` fails (the environment
returns a nonzero status on every state), then `jack_update` ends with a
final `deactivate_jack` and leaves the session with a null client
handle — deactivated rather than partially connected. -/
theorem jack_update_init_failure_leaves_deactivated (r : jack_data → Int)
    (d : jack_data) (s : obs_data) (name : String)
    (hfail : ∀ st, r st ≠ 0)
    (hch : s.startjack ≠ d.start_jack_server ∨ s.channels ≠ d.channels ∨
      d.device ≠ some name) :
    ∃ d', jack_update r (some d) s name =
        (some d', [JackCall.deactivate, JackCall.init, JackCall.deactivate]) ∧
      d'.jack_client = none := by
  refine ⟨{ device := some name, channels := s.channels,
            start_jack_server := s.startjack, jack_client := none }, ?_, rfl⟩
  simp [jack_update, jack_update_some_eq, hch, hfail]

theorem jack_update_init_failure_leaves_deactivated_witness :
    ∃ d', jack_update (fun _ => 1)
          (some ⟨some "x", 2, false, some ()⟩) ⟨true, 2⟩ "x" =
        (some d', [JackCall.deactivate, JackCall.init, JackCall.deactivate]) ∧
      d'.jack_client = none :=
  jack_update_init_failure_leaves_deactivated (fun _ => 1)
    ⟨some "x", 2, false, some ()⟩ ⟨true, 2⟩ "x"
    (by intro st; simp) (Or.inl (by decide))

/-- Claim C3, counterexample: `jack_update` applies the `channels` value of
the settings without clamping, so a successful `jack_create` with settings
whose `channels` is `0` yields a session state whose channel count is
outside [1,8]. -/
theorem channels_invariant_counterexample :
    jack_create (fun _ => 0) ⟨false, 0⟩ "x" =
        some ⟨some "x", 0, false, some ()⟩ ∧
      ¬(1 ≤ (jack_data.mk (some "x") 0 false (some ())).channels ∧
        (jack_data.mk (some "x") 0 false (some ())).channels ≤ 8) := by
  decide

/-- Claim C3 (amended): for every session state reachable through `create`
and any sequence of `update` calls whose settings all carry a channel
count in the documented schema range [1,8], the session's channel count
field is in [1,8]. -/
theorem reachable_channels_in_range (d : jack_data)
    (h : ReachableInRange d) : 1 ≤ d.channels ∧ d.channels ≤ 8 := by
  induction h with
  | create r s name d hc h1 h8 =>
    have hce := jack_create_channels_eq r s name d hc
    omega
  | update r s name d _ h1 h8 ih =>
    rw [jack_update_some_eq]
    split
    · split
      · exact ⟨h1, h8⟩
      · exact ⟨h1, h8⟩
    · exact ih

theorem reachable_channels_in_range_witness :
    1 ≤ (jack_data.mk (some "x") 2 false (some ())).channels ∧
      (jack_data.mk (some "x") 2 false (some ())).channels ≤ 8 :=
  reachable_channels_in_range _
    (ReachableInRange.create (fun _ => 0) ⟨false, 2⟩ "x" _
      (by decide) (by decide) (by decide))

/-- Claim C4: when the audio server is unreachable (`jack_init` returns a
nonzero status on every state), `jack_create` obtains no client, destroys
the partially built session and returns null. -/
theorem jack_create_unreachable_server_null (r : jack_data → Int)
    (s : obs_data) (name : String) (hfail : ∀ st, r st ≠ 0) :
    jack_create r s name = none := by
  simp [jack_create, jack_update_some_eq, hfail]

theorem jack_create_unreachable_server_null_witness :
    jack_create (fun _ => 1) ⟨false, 2⟩ "x" = none :=
  jack_create_unreachable_server_null (fun _ => 1) ⟨false, 2⟩ "x"
    (by intro st; simp)

/-- Claim C5: `jack_destroy` on a null handle performs no action at all:
no deactivation, no frees, no mutex destruction. -/
theorem jack_destroy_null_noop : jack_destroy none = [] := rfl

/-- Claim C6: running the channel-count modified callback with `channels`
2, then 5, then 2 again gives each port-list property of index `j < 8` the
same visibility as running it once with `channels` 2, namely visible
exactly for indices 0 and 1. -/
theorem channel_count_change_roundtrip (props : String → Bool) (j : Nat)
    (hj : j < JACK_INPUT_MAX_PORTS) :
    jack_input_channel_count_changed 2
        (jack_input_channel_count_changed 5
          (jack_input_channel_count_changed 2 props))
        (channel_ports_property_names.getD j "") =
      jack_input_channel_count_changed 2 props
        (channel_ports_property_names.getD j "") ∧
      jack_input_channel_count_changed 2 props
        (channel_ports_property_names.getD j "") = decide ((j : Int) < 2) := by
  have ha := channel_count_changed_apply 2
    (jack_input_channel_count_changed 5
      (jack_input_channel_count_changed 2 props)) j hj
  have hb := channel_count_changed_apply 2 props j hj
  rw [ha, hb]
  exact ⟨rfl, rfl⟩

theorem channel_count_change_roundtrip_witness :
    jack_input_channel_count_changed 2
        (jack_input_channel_count_changed 5
          (jack_input_channel_count_changed 2 (fun _ => false)))
        (channel_ports_property_names.getD 0 "") =
      jack_input_channel_count_changed 2 (fun _ => false)
        (channel_ports_property_names.getD 0 "") ∧
      jack_input_channel_count_changed 2 (fun _ => false)
        (channel_ports_property_names.getD 0 "") = decide ((0 : Int) < 2) :=
  channel_count_change_roundtrip (fun _ => false) 0 (by decide)

/-- Claim C7, counterexample: a settings update differing from the session
only in the `startjack` flag, with `jack_init` failing, makes two
`deactivate_jack` calls (one before `jack_init` and one after the
failure), not exactly one. -/
theorem startjack_single_cycle_counterexample :
    (⟨true, 2⟩ : obs_data).channels =
        (⟨some "x", 2, false, some ()⟩ : jack_data).channels ∧
      (⟨true, 2⟩ : obs_data).startjack ≠
        (⟨some "x", 2, false, some ()⟩ : jack_data).start_jack_server ∧
      (⟨some "x", 2, false, some ()⟩ : jack_data).device = some "x" ∧
      (jack_update (fun _ => 1)
          (some ⟨some "x", 2, false, some ()⟩) ⟨true, 2⟩ "x").2.count
        JackCall.deactivate = 2 := by
  decide

/-- Claim C7 (amended): a settings update differing from the session only
in the `startjack` flag triggers exactly one deactivate-then-reinitialize
cycle: exactly one `jack_init` call, and the wrapper-call trace is
`deactivate, init` when `jack_init` succeeds and
`deactivate, init, deactivate` (one extra deactivation) when it fails. -/
theorem startjack_change_one_cycle (r : jack_data → Int) (d : jack_data)
    (s : obs_data) (name : String)
    (h1 : s.startjack ≠ d.start_jack_server) (h2 : s.channels = d.channels)
    (h3 : d.device = some name) :
    ((jack_update r (some d) s name).2.count JackCall.init = 1 ∧
      ((jack_update r (some d) s name).2 =
          [JackCall.deactivate, JackCall.init] ∨
        (jack_update r (some d) s name).2 =
          [JackCall.deactivate, JackCall.init, JackCall.deactivate])) ∧
      ((jack_update r (some d) s name).2 =
          [JackCall.deactivate, JackCall.init] ↔
        r { device := some name, channels := s.channels,
            start_jack_server := s.startjack, jack_client := none } = 0) := by
  by_cases hr : r ⟨some name, s.channels, s.startjack, none⟩ = 0 <;>
    simp [jack_update, jack_update_some_eq, h1, hr, List.count_cons]

theorem startjack_change_one_cycle_witness :
    ((jack_update (fun _ => 0)
          (some ⟨some "x", 2, false, some ()⟩) ⟨true, 2⟩ "x").2.count
        JackCall.init = 1 ∧
      ((jack_update (fun _ => 0)
            (some ⟨some "x", 2, false, some ()⟩) ⟨true, 2⟩ "x").2 =
          [JackCall.deactivate, JackCall.init] ∨
        (jack_update (fun _ => 0)
            (some ⟨some "x", 2, false, some ()⟩) ⟨true, 2⟩ "x").2 =
          [JackCall.deactivate, JackCall.init, JackCall.deactivate])) ∧
      ((jack_update (fun _ => 0)
            (some ⟨some "x", 2, false, some ()⟩) ⟨true, 2⟩ "x").2 =
          [JackCall.deactivate, JackCall.init] ↔
        (fun _ => (0 : Int)) (⟨some "x", 2, true, none⟩ : jack_data) = 0) :=
  startjack_change_one_cycle (fun _ => 0) ⟨some "x", 2, false, some ()⟩
    ⟨true, 2⟩ "x" (by decide) (by decide) (by decide)

/-- Claim C8: `jack_input_defaults` installs exactly two defaults: the
integer 2 for the `channels` key and the boolean false for the
`startjack` key, and nothing else. -/
theorem jack_input_defaults_exact :
    jack_input_defaults [] =
      [("channels", obs_default.int 2), ("startjack", obs_default.bool false)] := by
  decide

/-- Claim C9: `jack_update` on a null session handle returns immediately:
the handle stays null and no wrapper call is made. -/
theorem jack_update_null_noop (r : jack_data → Int) (s : obs_data)
    (name : String) : jack_update r none s name = (none, []) := rfl

/-- Claim C10: a settings update whose server-start flag and channel count
equal the session's current values, with the source name equal to the
stored device name, leaves the session state unchanged and makes no
deactivate or reinitialize call. -/
theorem jack_update_unchanged_noop (r : jack_data → Int) (d : jack_data)
    (s : obs_data) (name : String)
    (h1 : s.startjack = d.start_jack_server) (h2 : s.channels = d.channels)
    (h3 : d.device = some name) :
    jack_update r (some d) s name = (some d, []) := by
  simp [jack_update, jack_update_some_eq, h1, h2, h3]

theorem jack_update_unchanged_noop_witness :
    jack_update (fun _ => 0) (some ⟨some "x", 2, false, some ()⟩)
        ⟨false, 2⟩ "x" = (some ⟨some "x", 2, false, some ()⟩, []) :=
  jack_update_unchanged_noop (fun _ => 0) ⟨some "x", 2, false, some ()⟩
    ⟨false, 2⟩ "x" (by decide) (by decide) (by decide)

end JackInput
